/-
Verification of the Mikky OS sandboxed tool-execution engine specification
against the repository's code. Pure functions from the source are embedded
as Lean definitions; the Worker Manager itself (lib/docker.ts) is not part
of the available sources, so its operations are modelled from the spec,
each such definition marked `Modelled from the spec:` in its doc comment.
-/
import Mathlib

namespace MikkyOS

/-- Result record returned by the engine's execution operations
(`ToolExecutionResult` in spec section 3; field names follow the
shape observed at the call sites in `tools.ts` and the vitest mocks). -/
structure ToolExecutionResult where
  stdout : String
  stderr : String
  exitCode : Int
  success : Bool
  timedOut : Bool
  duration : Nat
  parsed : Option String
  deriving DecidableEq, Repr

/-- Request record passed to `runTool` / `runToolInSession`
(field names as at the call sites in `tools.ts` and `functions.ts`). -/
structure ToolExecutionRequest where
  command : String
  scanRunId : String
  stage : String
  tool : String
  timeout : Option Nat
  deriving DecidableEq, Repr

/-- Modelled from the spec: the result-record constructor shared by both
execution paths of the missing `lib/docker.ts`; `success` is true iff the
process exited 0 and the watchdog did not fire (spec section 3). -/
def mkResult (code : Int) (tout : Bool) (out err : String) (dur : Nat)
    (parsed : Option String) : ToolExecutionResult :=
  { stdout := out, stderr := err, exitCode := code,
    success := code == 0 && !tout, timedOut := tout,
    duration := dur, parsed := parsed }

-- ===========================================================================
-- One-shot execution (`runTool`) modelled from spec section 4.1
-- ===========================================================================

/-- Container-creation configuration handed to the substrate. -/
structure ContainerConfig where
  image : String
  cmd : String
  privileged : Bool
  capAdd : List String
  deriving DecidableEq, Repr

/-- Modelled from the spec: privilege policy of the missing `lib/docker.ts`
(spec section 4.1 and the assertion in `docker.test.ts`): disposable
containers are privileged with NET_ADMIN and NET_RAW capabilities. -/
def oneShotConfig (req : ToolExecutionRequest) : ContainerConfig :=
  { image := "mikky-worker", cmd := req.command,
    privileged := true, capAdd := ["NET_ADMIN", "NET_RAW"] }

/-- Calls the engine issues against the execution substrate. -/
inductive SubstrateCall where
  | create (cfg : ContainerConfig)
  | start
  | wait
  | logs
  | kill
  | remove
  deriving DecidableEq, Repr

/-- The possible fates of a one-shot execution, one per exit path named by
the spec: create/start failure, normal exit, watchdog timeout, or a thrown
error while waiting. -/
inductive RunOutcome where
  | createFailed (msg : String)
  | startFailed (msg : String)
  | exited (code : Int) (out err : String)
  | timeout (out err : String)
  | waitThrew (msg : String)
  deriving DecidableEq, Repr

/-- Whether the substrate got as far as creating the container. -/
def RunOutcome.createdContainer : RunOutcome → Bool
  | .createFailed _ => false
  | _ => true

/-- What `runTool` produces: the value returned (or error thrown) to the
caller, the sequence of substrate calls issued, and log lines emitted. -/
structure RunToolOutput where
  result : Except String ToolExecutionResult
  calls : List SubstrateCall
  logLines : List String
  deriving Repr

/-- Modelled from the spec: `runTool` of the missing `lib/docker.ts`
(spec section 4.1). Creates a privileged disposable container, starts it,
races the wait against the timeout watchdog, and removes the container on
every exit path after creation; on timeout it issues one forced kill whose
own failure is only logged. -/
def runTool (req : ToolExecutionRequest) (oc : RunOutcome)
    (killFails : Bool) (dur : Nat) : RunToolOutput :=
  let cfg := oneShotConfig req
  match oc with
  | .createFailed m =>
      { result := .error m, calls := [.create cfg], logLines := [] }
  | .startFailed m =>
      { result := .error m,
        calls := [.create cfg, .start, .remove], logLines := [] }
  | .exited c out err =>
      { result := .ok (mkResult c false out err dur none),
        calls := [.create cfg, .start, .wait, .logs, .remove],
        logLines := [] }
  | .timeout out err =>
      { result := .ok (mkResult (-1) true out err dur none),
        calls := [.create cfg, .start, .wait, .kill, .remove],
        logLines := if killFails then ["kill failed"] else [] }
  | .waitThrew m =>
      { result := .error m,
        calls := [.create cfg, .start, .wait, .remove], logLines := [] }

-- ===========================================================================
-- Session-scoped execution (`runToolInSession`) modelled from spec 4.3
-- ===========================================================================

/-- Fate of a single exec invocation inside a session container. -/
inductive ExecOutcome where
  | exited (code : Int) (out err : String)
  | timeout (out err : String)
  deriving DecidableEq, Repr

/-- Modelled from the spec: invoking the caller-supplied result parser on
collected stdout; a parser exception is caught, leaving `parsed` unset
(spec sections 4.3 and 7, ParserFailure). -/
def applyParser (parser : Option (String → Except String String))
    (out : String) : Option String :=
  match parser with
  | none => none
  | some p =>
      match p out with
      | .ok v => some v
      | .error _ => none

/-- Modelled from the spec: `runToolInSession` of the missing
`lib/docker.ts` (spec section 4.3): execute inside the session container,
build the result with the shared constructor, then populate `parsed` from
the optional parser. -/
def runToolInSession (req : ToolExecutionRequest) (oc : ExecOutcome)
    (parser : Option (String → Except String String)) (dur : Nat) :
    ToolExecutionResult :=
  match oc with
  | .exited c out err =>
      { mkResult c false out err dur none with
        parsed := applyParser parser out }
  | .timeout out err =>
      { mkResult (-1) true out err dur none with
        parsed := applyParser parser out }

-- ===========================================================================
-- `executeToolCall` and `buildCommand`, embedded from
-- src/mikky-os-backend/src/lib/tools.ts
-- ===========================================================================

/-- The argument object passed to a tool call (`tools.ts`); absent
properties are `none`, matching JavaScript `undefined`. -/
structure ToolArgs where
  target : Option String
  scan_type : Option String
  domain : Option String
  record_type : Option String
  url : Option String
  deriving DecidableEq, Repr

/-- JavaScript string interpolation of a possibly-undefined value. -/
def jsStr : Option String → String
  | some s => s
  | none => "undefined"

/-- JavaScript `x || d` on a possibly-undefined string. -/
def jsOrDefault (o : Option String) (d : String) : String :=
  match o with
  | some s => if s = "" then d else s
  | none => d

/-- `buildCommand` from `tools.ts`: maps a tool name and arguments to the
shell command line, throwing (as `Except.error`) on an unknown tool. -/
def buildCommand (toolName : String) (args : ToolArgs) :
    Except String String :=
  if toolName = "nmap_scan" then
    let target := jsStr args.target
    let scanType := jsOrDefault args.scan_type "fast"
    let flags :=
      if scanType = "normal" then ""
      else if scanType = "full" then "-p-"
      else if scanType = "stealth" then "-sS -T2"
      else "-F"
    .ok (("nmap " ++ flags ++ " " ++ target).trim)
  else if toolName = "whois_lookup" then
    .ok ("whois " ++ jsStr args.domain)
  else if toolName = "dns_lookup" then
    .ok ("dig " ++ jsStr args.domain ++ " "
      ++ jsOrDefault args.record_type "ANY" ++ " +short")
  else if toolName = "http_probe" then
    .ok ("curl -sI -L --max-time 10 " ++ jsStr args.url)
  else if toolName = "subdomain_enum" then
    .ok ("subfinder -d " ++ jsStr args.domain
      ++ " -silent 2>/dev/null || echo \"Subdomain enumeration requires subfinder\"")
  else
    .error ("Unknown tool: " ++ toolName)

/-- Result record of `executeToolCall` (`ToolResult` in `tools.ts`). -/
structure ToolResult where
  success : Bool
  output : String
  error : Option String
  deriving DecidableEq, Repr

/-- `executeToolCall` from `tools.ts`: build the command, run it in the
agent session via the engine, and map the engine result (or any thrown
error, engine-thrown ones included) to a `ToolResult`. The engine call is
abstracted as a function from the request to the thrown-or-returned
outcome of `workerManager.runToolInSession`. -/
def executeToolCall (toolName : String) (args : ToolArgs)
    (sessionId : String)
    (engine : ToolExecutionRequest → Except String ToolExecutionResult) :
    ToolResult :=
  match buildCommand toolName args with
  | .error msg => { success := false, output := "", error := some msg }
  | .ok command =>
    match engine { command := command, scanRunId := sessionId,
                   stage := "agent", tool := toolName,
                   timeout := some 60000 } with
    | .error msg => { success := false, output := "", error := some msg }
    | .ok result =>
        if result.success then
          { success := true,
            output := if result.stdout = "" then
                "Command completed with no output."
              else result.stdout,
            error := none }
        else if result.timedOut then
          { success := false, output := "",
            error := some ("Command timed out after "
              ++ toString result.duration ++ "ms") }
        else
          { success := false,
            output := result.stdout,
            error := some (if result.stderr = "" then
                "Command failed with exit code " ++ toString result.exitCode
              else result.stderr) }

-- ===========================================================================
-- Output demultiplexer, modelled from spec section 4.4
-- ===========================================================================

/-- Big-endian encoding of a frame length into the fixed-size (4-byte)
length field of the substrate's framing. -/
def be32 (n : Nat) : List Nat :=
  [n / 2 ^ 24 % 256, n / 2 ^ 16 % 256, n / 2 ^ 8 % 256, n % 256]

/-- Modelled from the spec: one frame of the substrate's combined stream —
a one-byte stream-type discriminator, the fixed-size big-endian length
field, then that many payload bytes (spec section 4.4). -/
def encodeFrame (f : Nat × List Nat) : List Nat :=
  f.1 :: (be32 f.2.length ++ f.2)

/-- A whole framed stream: the concatenation of its frames. -/
def encodeFrames (frames : List (Nat × List Nat)) : List Nat :=
  (frames.map encodeFrame).flatten

/-- The stdout bytes carried by a frame list (stream type other than 2). -/
def stdoutOf (frames : List (Nat × List Nat)) : List Nat :=
  ((frames.filter (fun f => f.1 != 2)).map Prod.snd).flatten

/-- The stderr bytes carried by a frame list (stream type 2). -/
def stderrOf (frames : List (Nat × List Nat)) : List Nat :=
  ((frames.filter (fun f => f.1 == 2)).map Prod.snd).flatten

/-- State of the incremental decoder: bytes not yet forming a complete
frame, plus the stdout and stderr bytes emitted so far. -/
structure DemuxState where
  buffer : List Nat
  stdout : List Nat
  stderr : List Nat
  deriving DecidableEq, Repr

/-- Reads the big-endian length field of the frame at the head of the
buffer (bytes 1 through 4, after the stream-type byte). -/
def readLen (l : List Nat) : Nat :=
  l.getD 1 0 * 2 ^ 24 + l.getD 2 0 * 2 ^ 16 + l.getD 3 0 * 2 ^ 8 + l.getD 4 0

/-- Modelled from the spec: the streaming decode loop — extract complete
frames from the buffer while one is fully present, routing each payload to
stdout or stderr by its stream-type byte (spec section 4.4). -/
def drain (s : DemuxState) : DemuxState :=
  if h : 5 ≤ s.buffer.length ∧ 5 + readLen s.buffer ≤ s.buffer.length then
    drain { buffer := s.buffer.drop (5 + readLen s.buffer),
            stdout := if s.buffer.getD 0 0 == 2 then s.stdout
              else s.stdout ++ (s.buffer.drop 5).take (readLen s.buffer),
            stderr := if s.buffer.getD 0 0 == 2 then
                s.stderr ++ (s.buffer.drop 5).take (readLen s.buffer)
              else s.stderr }
  else s
termination_by s.buffer.length
decreasing_by
  simp only [List.length_drop]
  omega

/-- Modelled from the spec: feeding one partial read into the decoder. -/
def feed (s : DemuxState) (chunk : List Nat) : DemuxState :=
  drain { s with buffer := s.buffer ++ chunk }

/-- Feeding a sequence of partial reads. -/
def feedChunks (s : DemuxState) (chunks : List (List Nat)) : DemuxState :=
  chunks.foldl feed s

/-- Decoder start state. -/
def demuxInit : DemuxState := ⟨[], [], []⟩

/-- Frames whose payload length fits the fixed-size length field. -/
def ValidFrames (frames : List (Nat × List Nat)) : Prop :=
  ∀ f ∈ frames, f.2.length < 2 ^ 32

instance : DecidablePred ValidFrames := fun _ =>
  List.decidableBAll _ _

-- ===========================================================================
-- Session registry and `startSession`, modelled from spec section 4.2
-- ===========================================================================

/-- Session lifecycle states (spec section 3). -/
inductive SessionStatus where
  | starting
  | ready
  | stopping
  | stopped
  deriving DecidableEq, Repr

/-- One registry entry: session status plus the owned container. -/
structure SessionEntry where
  status : SessionStatus
  containerId : Nat
  deriving DecidableEq, Repr

/-- The Session Registry, with a counter of containers created so far and
a supply of fresh container identities. -/
structure Registry where
  sessions : List (String × SessionEntry)
  nextId : Nat
  created : Nat
  deriving DecidableEq, Repr

/-- Registry lookup by session key. -/
def lookupSession (r : Registry) (key : String) : Option SessionEntry :=
  (r.sessions.find? (fun p => p.1 == key)).map Prod.snd

/-- Whether a live (Ready or Starting) entry exists for `key`. -/
def hasLive (r : Registry) (key : String) : Bool :=
  match lookupSession r key with
  | some entry => entry.status == .ready || entry.status == .starting
  | none => false

/-- Modelled from the spec: `startSession` of the missing `lib/docker.ts`
(spec section 4.2): under the per-key lock, reuse a Ready/Starting entry
if present; otherwise create one keep-alive container and register it as
Ready, rolling back (leaving the registry unchanged) when the substrate is
unavailable. Returns the success flag and the new registry state. -/
def startSession (substrateUp : Bool) (key : String) (r : Registry) :
    Bool × Registry :=
  if hasLive r key then (true, r)
  else if substrateUp then
    (true,
      { sessions :=
          (key, ⟨.ready, r.nextId⟩) ::
            r.sessions.filter (fun p => p.1 != key),
        nextId := r.nextId + 1,
        created := r.created + 1 })
  else (false, r)

-- ===========================================================================
-- Health check, modelled from spec section 4.5
-- ===========================================================================

/-- The substrate surface the health check consults; each probe either
answers or fails (is unreachable / throws). -/
structure SubstrateProbe where
  ping : Except String Unit
  listImages : Except String (List String)
  listContainers : Except String (List String)
  version : Except String String

/-- Health snapshot (spec section 3). -/
structure HealthStatus where
  dockerAvailable : Bool
  imageExists : Bool
  activeContainers : Nat
  activeSessions : Nat
  version : Option String
  deriving DecidableEq, Repr

/-- Modelled from the spec: `healthCheck` of the missing `lib/docker.ts`
(spec section 4.5): four independent best-effort sub-checks; a failing
sub-check degrades only its own field to false/0/none and the call as a
whole returns a `HealthStatus` rather than throwing. -/
def healthCheck (sub : SubstrateProbe) (registrySize : Nat) : HealthStatus :=
  { dockerAvailable :=
      match sub.ping with
      | .ok _ => true
      | .error _ => false,
    imageExists :=
      match sub.listImages with
      | .ok imgs => imgs.contains "mikky-worker"
      | .error _ => false,
    activeContainers :=
      match sub.listContainers with
      | .ok cs => cs.length
      | .error _ => 0,
    activeSessions := registrySize,
    version :=
      match sub.version with
      | .ok v => some v
      | .error _ => none }

/-- A completely unreachable substrate: every probe fails. -/
def downSubstrate (msg : String) : SubstrateProbe :=
  { ping := .error msg, listImages := .error msg,
    listContainers := .error msg, version := .error msg }

-- ===========================================================================
-- Per-key execution lock, modelled from spec sections 4.3 and 5
-- ===========================================================================

/-- Phase of one session-scoped execution: waiting for its key's lock,
running its command (the critical section), or finished. -/
inductive Phase where
  | idle
  | running
  | done
  deriving DecidableEq, Repr

/-- Modelled from the spec: the interleaving state of two session-scoped
executions guarded by per-key execution locks (spec section 5): each
task's phase, plus for every key the task currently holding its lock. -/
structure LockState where
  phase : Fin 2 → Phase
  owner : String → Option (Fin 2)

/-- Modelled from the spec: the scheduler steps of the per-key lock
discipline — a task may enter its command only by acquiring its key's
free lock, and releases the lock when the command finishes. `keys` maps
each task to the session key it targets. -/
inductive LockStep (keys : Fin 2 → String) : LockState → LockState → Prop
  | acquire (s : LockState) (i : Fin 2)
      (hp : s.phase i = .idle) (ho : s.owner (keys i) = none) :
      LockStep keys s
        { phase := Function.update s.phase i .running,
          owner := fun k => if k = keys i then some i else s.owner k }
  | release (s : LockState) (i : Fin 2)
      (hp : s.phase i = .running) :
      LockStep keys s
        { phase := Function.update s.phase i .done,
          owner := fun k => if k = keys i then none else s.owner k }

/-- All executions pending, no lock held. -/
def lockInit : LockState :=
  { phase := fun _ => .idle, owner := fun _ => none }

/-- States reachable by the lock scheduler. -/
def LockReachable (keys : Fin 2 → String) : LockState → Prop :=
  Relation.ReflTransGen (LockStep keys) lockInit

/-- Demonstration keys: two executions targeting distinct sessions. -/
def twoKeysDemo : Fin 2 → String :=
  fun i => if i = 0 then "scan-1" else "scan-2"

/-- The state after execution 0 acquires the lock of its key. -/
def lockMid : LockState :=
  { phase := Function.update lockInit.phase 0 .running,
    owner := fun k => if k = twoKeysDemo 0 then some 0 else lockInit.owner k }

/-- The state with both distinct-key executions running at once. -/
def lockBoth : LockState :=
  { phase := Function.update lockMid.phase 1 .running,
    owner := fun k => if k = twoKeysDemo 1 then some 1 else lockMid.owner k }

-- ===========================================================================
-- Helper predicates used by the theorems
-- ===========================================================================

/-- Recognizes the forced-kill substrate call. -/
def isKill : SubstrateCall → Bool
  | .kill => true
  | _ => false

/-- Recognizes the container-removal substrate call. -/
def isRemove : SubstrateCall → Bool
  | .remove => true
  | _ => false

/-- How many of the three result states (`success`, `timedOut`, plain
failure) hold of a result; the spec invariant demands exactly one. -/
def stateCount (r : ToolExecutionResult) : Nat :=
  (if r.success then 1 else 0) + (if r.timedOut then 1 else 0) +
    (if r.success = false ∧ r.timedOut = false then 1 else 0)

/-- A result with its optional `parsed` field cleared: the raw portion. -/
def stripParsed (r : ToolExecutionResult) : ToolExecutionResult :=
  { r with parsed := none }

/-- The stdout text an exec outcome carries (what the parser is fed). -/
def ExecOutcome.out : ExecOutcome → String
  | .exited _ o _ => o
  | .timeout o _ => o

-- ===========================================================================
-- Claim theorems
-- ===========================================================================

/-- C1: for every valid request, `runTool` removes the disposable
container it created on every exit path — normal completion, non-zero
exit, timeout, or thrown error — issuing exactly one removal, as the last
substrate call, so no orphaned containers remain. -/
theorem runTool_always_removes_container (req : ToolExecutionRequest)
    (oc : RunOutcome) (killFails : Bool) (dur : Nat)
    (hcreated : oc.createdContainer = true) :
    ((runTool req oc killFails dur).calls.countP isRemove = 1) ∧
    ((runTool req oc killFails dur).calls.getLast? = some .remove) := by
  cases oc with
  | createFailed m => simp [RunOutcome.createdContainer] at hcreated
  | startFailed m => simp [runTool, List.countP, List.countP.go, isRemove]
  | exited c out err => simp [runTool, List.countP, List.countP.go, isRemove]
  | timeout out err => simp [runTool, List.countP, List.countP.go, isRemove]
  | waitThrew m => simp [runTool, List.countP, List.countP.go, isRemove]

/-- Witness for C1 at a concrete timed-out request. -/
theorem runTool_always_removes_container_witness :
    ((runTool ⟨"nmap -F localhost", "scan-1", "test", "nmap", none⟩
        (.timeout "" "") false 42).calls.countP isRemove = 1) ∧
    ((runTool ⟨"nmap -F localhost", "scan-1", "test", "nmap", none⟩
        (.timeout "" "") false 42).calls.getLast? = some .remove) :=
  runTool_always_removes_container
    ⟨"nmap -F localhost", "scan-1", "test", "nmap", none⟩
    (.timeout "" "") false 42 (by decide)

/-- C4: a run whose command exceeds the timeout yields `timedOut = true`
and `success = false`, issues exactly one forced-kill substrate call, and
a failure of that compensating kill is logged without changing the
returned result or the substrate calls issued. -/
theorem timeout_single_kill (req : ToolExecutionRequest)
    (out err : String) (killFails : Bool) (dur : Nat) :
    (∃ r, (runTool req (.timeout out err) killFails dur).result = .ok r ∧
      r.timedOut = true ∧ r.success = false) ∧
    ((runTool req (.timeout out err) killFails dur).calls.countP isKill
      = 1) ∧
    ((runTool req (.timeout out err) true dur).result
      = (runTool req (.timeout out err) false dur).result) ∧
    ((runTool req (.timeout out err) true dur).calls
      = (runTool req (.timeout out err) false dur).calls) ∧
    (killFails = true →
      "kill failed" ∈ (runTool req (.timeout out err) killFails dur).logLines) := by
  refine ⟨⟨mkResult (-1) true out err dur none, rfl, rfl, by simp [mkResult]⟩, ?_, rfl, rfl, ?_⟩
  · simp [runTool, List.countP, List.countP.go, isKill]
  · intro hk
    simp [runTool, hk]

/-- Witness for C4 at a concrete timed-out request with a failing kill. -/
theorem timeout_single_kill_witness :
    (∃ r, (runTool ⟨"sleep 60", "scan-1", "s", "sleep", some 10⟩
        (.timeout "partial" "") true 10).result = .ok r ∧
      r.timedOut = true ∧ r.success = false) ∧
    ((runTool ⟨"sleep 60", "scan-1", "s", "sleep", some 10⟩
        (.timeout "partial" "") true 10).calls.countP isKill = 1) ∧
    ((runTool ⟨"sleep 60", "scan-1", "s", "sleep", some 10⟩
        (.timeout "partial" "") true 10).result
      = (runTool ⟨"sleep 60", "scan-1", "s", "sleep", some 10⟩
        (.timeout "partial" "") false 10).result) ∧
    ((runTool ⟨"sleep 60", "scan-1", "s", "sleep", some 10⟩
        (.timeout "partial" "") true 10).calls
      = (runTool ⟨"sleep 60", "scan-1", "s", "sleep", some 10⟩
        (.timeout "partial" "") false 10).calls) ∧
    (true = true →
      "kill failed" ∈ (runTool ⟨"sleep 60", "scan-1", "s", "sleep", some 10⟩
        (.timeout "partial" "") true 10).logLines) :=
  timeout_single_kill ⟨"sleep 60", "scan-1", "s", "sleep", some 10⟩
    "partial" "" true 10

/-- C7: every container created by `runTool` is created privileged with
both the NET_RAW and NET_ADMIN capabilities added. -/
theorem runTool_container_privileged (req : ToolExecutionRequest)
    (oc : RunOutcome) (killFails : Bool) (dur : Nat)
    (cfg : ContainerConfig)
    (hmem : SubstrateCall.create cfg ∈ (runTool req oc killFails dur).calls) :
    cfg.privileged = true ∧
    "NET_RAW" ∈ cfg.capAdd ∧ "NET_ADMIN" ∈ cfg.capAdd := by
  have hcfg : cfg = oneShotConfig req := by
    cases oc <;> simp_all [runTool]
  subst hcfg
  refine ⟨rfl, by simp [oneShotConfig], by simp [oneShotConfig]⟩

/-- Witness for C7 at a concrete request. -/
theorem runTool_container_privileged_witness :
    (oneShotConfig ⟨"nmap -F localhost", "scan-1", "test", "nmap", none⟩).privileged = true ∧
    "NET_RAW" ∈ (oneShotConfig ⟨"nmap -F localhost", "scan-1", "test", "nmap", none⟩).capAdd ∧
    "NET_ADMIN" ∈ (oneShotConfig ⟨"nmap -F localhost", "scan-1", "test", "nmap", none⟩).capAdd :=
  runTool_container_privileged
    ⟨"nmap -F localhost", "scan-1", "test", "nmap", none⟩
    (.exited 0 "" "") false 7 _ (by simp [runTool])

/-- C8: with a supplied result parser, a parser exception is caught,
leaving `parsed` unset, and the raw stdout/stderr/exitCode/success
(and timedOut/duration) fields are exactly what they would be without a
parser; a parser failure never fails the execution. -/
theorem parser_failure_never_fails_execution (req : ToolExecutionRequest)
    (oc : ExecOutcome) (p : String → Except String String) (dur : Nat)
    (msg : String) (hthrow : p oc.out = .error msg) :
    ((runToolInSession req oc (some p) dur).parsed = none) ∧
    (stripParsed (runToolInSession req oc (some p) dur)
      = runToolInSession req oc none dur) := by
  constructor
  · cases oc <;>
      simp_all [runToolInSession, applyParser, ExecOutcome.out]
  · cases oc <;>
      simp [runToolInSession, applyParser, stripParsed]

/-- Witness for C8 with a concrete always-throwing parser. -/
theorem parser_failure_never_fails_execution_witness :
    ((runToolInSession ⟨"whois example.com", "scan-1", "info_gathering", "whois", none⟩
        (.exited 0 "raw whois text" "")
        (some fun _ => .error "boom") 30).parsed = none) ∧
    (stripParsed (runToolInSession
        ⟨"whois example.com", "scan-1", "info_gathering", "whois", none⟩
        (.exited 0 "raw whois text" "")
        (some fun _ => .error "boom") 30)
      = runToolInSession
        ⟨"whois example.com", "scan-1", "info_gathering", "whois", none⟩
        (.exited 0 "raw whois text" "") none 30) :=
  parser_failure_never_fails_execution
    ⟨"whois example.com", "scan-1", "info_gathering", "whois", none⟩
    (.exited 0 "raw whois text" "") (fun _ => .error "boom") 30 "boom" rfl

/-- The decode loop stops when no complete frame is buffered. -/
theorem drain_stop (s : DemuxState)
    (h : ¬(5 ≤ s.buffer.length ∧ 5 + readLen s.buffer ≤ s.buffer.length)) :
    drain s = s := by
  rw [drain]
  simp [h]

/-- The decode loop extracts the complete frame at the buffer's head. -/
theorem drain_step (s : DemuxState)
    (h : 5 ≤ s.buffer.length ∧ 5 + readLen s.buffer ≤ s.buffer.length) :
    drain s = drain
      { buffer := s.buffer.drop (5 + readLen s.buffer),
        stdout := if s.buffer.getD 0 0 == 2 then s.stdout
          else s.stdout ++ (s.buffer.drop 5).take (readLen s.buffer),
        stderr := if s.buffer.getD 0 0 == 2 then
            s.stderr ++ (s.buffer.drop 5).take (readLen s.buffer)
          else s.stderr } := by
  rw [drain]
  simp [h]

/-- The length field only depends on the first five buffered bytes. -/
theorem readLen_append (l more : List Nat) (h : 5 ≤ l.length) :
    readLen (l ++ more) = readLen l := by
  unfold readLen
  rw [List.getD_append _ _ _ _ (by omega), List.getD_append _ _ _ _ (by omega),
      List.getD_append _ _ _ _ (by omega), List.getD_append _ _ _ _ (by omega)]

/-- Draining, then receiving more bytes, decodes the same as receiving
the whole buffer at once: the decoder is insensitive to read boundaries. -/
theorem drain_extend (s : DemuxState) (more : List Nat) :
    drain { buffer := (drain s).buffer ++ more,
            stdout := (drain s).stdout, stderr := (drain s).stderr }
      = drain { buffer := s.buffer ++ more,
                stdout := s.stdout, stderr := s.stderr } := by
  induction s using drain.induct with
  | case1 s h ih =>
      have h1 : 5 ≤ (s.buffer ++ more).length := by
        rw [List.length_append]; omega
      have hread : readLen (s.buffer ++ more) = readLen s.buffer :=
        readLen_append _ _ h.1
      have h2 : 5 + readLen (s.buffer ++ more) ≤ (s.buffer ++ more).length := by
        rw [hread, List.length_append]; omega
      have hhead : (s.buffer ++ more).getD 0 0 = s.buffer.getD 0 0 :=
        List.getD_append _ _ _ _ (by omega)
      have htake : ((s.buffer ++ more).drop 5).take (readLen s.buffer)
          = (s.buffer.drop 5).take (readLen s.buffer) := by
        rw [List.drop_append_of_le_length (by omega)]
        rw [List.take_append_of_le_length (by simp [List.length_drop]; omega)]
      have hdrop : (s.buffer ++ more).drop (5 + readLen s.buffer)
          = s.buffer.drop (5 + readLen s.buffer) ++ more :=
        List.drop_append_of_le_length h.2
      simp only [dite_eq_ite] at ih
      rw [drain_step s h, ih,
        drain_step ⟨s.buffer ++ more, s.stdout, s.stderr⟩ ⟨h1, h2⟩]
      simp only [hread, hhead, htake, hdrop]
  | case2 s h =>
      rw [drain_stop s h]

/-- One feed already produces a fully drained state. -/
theorem drain_idem (s : DemuxState) : drain (drain s) = drain s := by
  induction s using drain.induct with
  | case1 s h ih =>
      rw [drain_step s h]
      simp only [dite_eq_ite] at ih
      exact ih
  | case2 s h =>
      rw [drain_stop s h, drain_stop s h]

/-- Feeding two reads equals feeding their concatenation. -/
theorem feed_append (s : DemuxState) (a b : List Nat) :
    feed (feed s a) b = feed s (a ++ b) := by
  unfold feed
  rw [← List.append_assoc]
  exact drain_extend ⟨s.buffer ++ a, s.stdout, s.stderr⟩ b

/-- From a drained state, any chunking of the input bytes decodes exactly
as the whole byte sequence fed in one read. -/
theorem feedChunks_flatten (s : DemuxState) (chunks : List (List Nat))
    (hs : drain s = s) :
    feedChunks s chunks = feed s chunks.flatten := by
  induction chunks generalizing s with
  | nil =>
      simp only [feedChunks, List.foldl_nil, List.flatten_nil, feed,
        List.append_nil]
      exact (hs.symm).trans (congrArg drain rfl)
  | cons c cs ih =>
      simp only [feedChunks, List.foldl_cons, List.flatten_cons]
      rw [← feed_append]
      exact ih (feed s c) (drain_idem _)

/-- Decoding the length field inverts its big-endian encoding. -/
theorem readLen_be32 (t n : Nat) (rest : List Nat) (h : n < 2 ^ 32) :
    readLen (t :: (be32 n ++ rest)) = n := by
  simp [readLen, be32, List.getD_cons_succ, List.getD_cons_zero, List.getD]
  omega

/-- Draining an encoded frame stream consumes it entirely, appending each
payload to the stream its type byte selects. -/
theorem drain_encode (frames : List (Nat × List Nat)) (o e : List Nat)
    (hv : ValidFrames frames) :
    drain ⟨encodeFrames frames, o, e⟩
      = ⟨[], o ++ stdoutOf frames, e ++ stderrOf frames⟩ := by
  induction frames generalizing o e with
  | nil =>
      rw [drain_stop ⟨encodeFrames [], o, e⟩ (by simp [encodeFrames, readLen])]
      simp [encodeFrames, stdoutOf, stderrOf]
  | cons f rest ih =>
      obtain ⟨t, p⟩ := f
      have hlen : p.length < 2 ^ 32 := hv (t, p) (List.mem_cons_self _ _)
      have hbuf : encodeFrames ((t, p) :: rest)
          = t :: (be32 p.length ++ (p ++ encodeFrames rest)) := by
        simp [encodeFrames, encodeFrame, List.cons_append, List.append_assoc]
      have hb2 : encodeFrames ((t, p) :: rest)
          = (t :: be32 p.length) ++ (p ++ encodeFrames rest) := by
        rw [hbuf]; rfl
      have hrl : readLen (encodeFrames ((t, p) :: rest)) = p.length := by
        rw [hbuf]; exact readLen_be32 _ _ _ hlen
      have hready : 5 ≤ (encodeFrames ((t, p) :: rest)).length ∧
          5 + readLen (encodeFrames ((t, p) :: rest))
            ≤ (encodeFrames ((t, p) :: rest)).length := by
        constructor
        · rw [hbuf]; simp [be32]
        · rw [hrl, hbuf]; simp [be32]; omega
      have hgd : (encodeFrames ((t, p) :: rest)).getD 0 0 = t := by
        rw [hbuf]; rfl
      have hdrop5 : (encodeFrames ((t, p) :: rest)).drop 5
          = p ++ encodeFrames rest := by
        rw [hb2, show (5 : Nat) = (t :: be32 p.length).length from by
          simp [be32]]
        exact List.drop_left _ _
      have htake : ((encodeFrames ((t, p) :: rest)).drop 5).take
          (readLen (encodeFrames ((t, p) :: rest))) = p := by
        rw [hdrop5, hrl]; exact List.take_left p _
      have hdroprest : (encodeFrames ((t, p) :: rest)).drop
          (5 + readLen (encodeFrames ((t, p) :: rest)))
          = encodeFrames rest := by
        rw [hrl, hb2, show 5 + p.length
            = (t :: be32 p.length).length + p.length from by simp [be32]]
        rw [List.drop_append, List.drop_left]
      rw [drain_step _ hready]
      simp only [hgd, htake, hdroprest]
      rw [ih _ _ (fun f hf => hv f (List.mem_cons_of_mem _ hf))]
      by_cases ht : t = 2
      · simp [stdoutOf, stderrOf, List.filter_cons, ht, List.append_assoc]
      · simp [stdoutOf, stderrOf, List.filter_cons, ht, List.append_assoc]

/-- C6: the demultiplexer round-trips: feeding any chunking of a framed
stream decodes it exactly as one read would, and decoding an encoded
stream of known stdout/stderr frames reproduces the original stdout and
stderr byte sequences exactly, for every chunking of the input. -/
theorem demux_round_trip_chunk_independent :
    (∀ (s : DemuxState) (chunks : List (List Nat)), drain s = s →
      feedChunks s chunks = feed s chunks.flatten) ∧
    (∀ (frames : List (Nat × List Nat)) (chunks : List (List Nat)),
      ValidFrames frames → chunks.flatten = encodeFrames frames →
      feedChunks demuxInit chunks
        = ⟨[], stdoutOf frames, stderrOf frames⟩) := by
  constructor
  · exact fun s chunks hs => feedChunks_flatten s chunks hs
  · intro frames chunks hv henc
    have hinit : drain demuxInit = demuxInit :=
      drain_stop demuxInit (by simp [demuxInit, readLen])
    rw [feedChunks_flatten demuxInit chunks hinit, henc]
    show drain ⟨[] ++ encodeFrames frames, [], []⟩ = _
    rw [List.nil_append]
    rw [drain_encode frames [] [] hv]
    simp

/-- Witness for C6: three interleaved frames split across four reads that
cut through frame headers and payloads. -/
theorem demux_round_trip_chunk_independent_witness :
    feedChunks demuxInit
        [[1, 0, 0], [0, 2, 72], [105, 2, 0, 0, 0], [1, 33, 1, 0, 0, 0, 1, 10]]
      = ⟨[], stdoutOf [(1, [72, 105]), (2, [33]), (1, [10])],
          stderrOf [(1, [72, 105]), (2, [33]), (1, [10])]⟩ :=
  demux_round_trip_chunk_independent.2
    [(1, [72, 105]), (2, [33]), (1, [10])]
    [[1, 0, 0], [0, 2, 72], [105, 2, 0, 0, 0], [1, 33, 1, 0, 0, 0, 1, 10]]
    (by decide) (by decide)

/-- C2: every result returned by `runToolInSession` or `runTool` is in
exactly one of the three states {success, timedOut, plain failure}, and
`success` holds iff the process exited 0 and did not time out. -/
theorem result_tri_state_invariant :
    (∀ (req : ToolExecutionRequest) (oc : ExecOutcome)
        (parser : Option (String → Except String String)) (dur : Nat),
      stateCount (runToolInSession req oc parser dur) = 1 ∧
      ((runToolInSession req oc parser dur).success = true ↔
        (runToolInSession req oc parser dur).exitCode = 0 ∧
        (runToolInSession req oc parser dur).timedOut = false)) ∧
    (∀ (req : ToolExecutionRequest) (oc : RunOutcome) (killFails : Bool)
        (dur : Nat) (r : ToolExecutionResult),
      (runTool req oc killFails dur).result = .ok r →
      stateCount r = 1 ∧
      (r.success = true ↔ r.exitCode = 0 ∧ r.timedOut = false)) := by
  constructor
  · intro req oc parser dur
    cases oc with
    | exited c out err =>
        constructor
        · by_cases hc : c = 0 <;>
            simp [runToolInSession, mkResult, stateCount, hc]
        · simp [runToolInSession, mkResult]
    | timeout out err =>
        constructor
        · simp [runToolInSession, mkResult, stateCount]
        · simp [runToolInSession, mkResult]
  · intro req oc killFails dur r h
    cases oc with
    | createFailed m => simp [runTool] at h
    | startFailed m => simp [runTool] at h
    | waitThrew m => simp [runTool] at h
    | exited c out err =>
        simp only [runTool, Except.ok.injEq] at h
        subst h
        constructor
        · by_cases hc : c = 0 <;> simp [mkResult, stateCount, hc]
        · simp [mkResult]
    | timeout out err =>
        simp only [runTool, Except.ok.injEq] at h
        subst h
        constructor
        · simp [mkResult, stateCount]
        · simp [mkResult]

/-- Witness for C2 at a concrete completed run. -/
theorem result_tri_state_invariant_witness :
    stateCount (mkResult 0 false "scan output" "" 5 none) = 1 ∧
    ((mkResult 0 false "scan output" "" 5 none).success = true ↔
      (mkResult 0 false "scan output" "" 5 none).exitCode = 0 ∧
      (mkResult 0 false "scan output" "" 5 none).timedOut = false) :=
  result_tri_state_invariant.2 ⟨"dig example.com", "scan-1", "s", "dig", none⟩
    (.exited 0 "scan output" "") false 5 _ rfl

/-- C3: `startSession` is idempotent per key: a call for a key with a live
(Ready/Starting) entry returns success and leaves the registry unchanged;
starting a missing session creates exactly one container, and an
immediately repeated call reuses it without creating another; distinct
registry keys stay distinct, so at most one container exists per key. -/
theorem startSession_idempotent (r : Registry) (key : String) :
    (hasLive r key = true → startSession true key r = (true, r)) ∧
    ((startSession true key r).1 = true) ∧
    (startSession true key (startSession true key r).2
      = (true, (startSession true key r).2)) ∧
    (hasLive r key = false →
      (startSession true key r).2.created = r.created + 1) ∧
    (hasLive r key = true →
      (startSession true key r).2.created = r.created) ∧
    ((r.sessions.map Prod.fst).Nodup →
      ((startSession true key r).2.sessions.map Prod.fst).Nodup) := by
  cases hl : hasLive r key with
  | true =>
      refine ⟨fun _ => ?_, ?_, ?_, fun h => ?_, fun _ => ?_, fun h => ?_⟩
      · simp [startSession, hl]
      · simp [startSession, hl]
      · simp [startSession, hl]
      · simp [hl] at h
      · simp [startSession, hl]
      · simpa [startSession, hl] using h
  | false =>
      have h1 : startSession true key r =
          (true, ⟨(key, ⟨.ready, r.nextId⟩) ::
              r.sessions.filter (fun p => p.1 != key),
            r.nextId + 1, r.created + 1⟩) := by
        simp [startSession, hl]
      have h2 : hasLive
          ⟨(key, ⟨.ready, r.nextId⟩) ::
              r.sessions.filter (fun p => p.1 != key),
            r.nextId + 1, r.created + 1⟩ key = true := by
        simp [hasLive, lookupSession]
      refine ⟨fun h => ?_, ?_, ?_, fun _ => ?_, fun h => ?_, fun hnd => ?_⟩
      · simp [hl] at h
      · rw [h1]
      · rw [h1]
        simp [startSession, h2]
      · rw [h1]
      · simp [hl] at h
      rw [h1]
      simp only [List.map_cons, List.nodup_cons]
      constructor
      · intro hmem
        simp only [List.mem_map, List.mem_filter] at hmem
        obtain ⟨p, ⟨_, hne⟩, hfst⟩ := hmem
        rw [hfst] at hne
        simp at hne
      · have hsub : (r.sessions.filter (fun p => p.1 != key)).Sublist
            r.sessions := List.filter_sublist _
        exact (hsub.map Prod.fst).nodup hnd

/-- Witness for C3 at a concrete registry. -/
theorem startSession_idempotent_witness :
    (startSession true "scan-1"
        ⟨[("scan-1", ⟨.ready, 0⟩)], 1, 1⟩
      = (true, ⟨[("scan-1", ⟨.ready, 0⟩)], 1, 1⟩)) ∧
    ((startSession true "scan-1" ⟨[], 0, 0⟩).2.created = 0 + 1) ∧
    (startSession true "scan-1" (startSession true "scan-1" ⟨[], 0, 0⟩).2
      = (true, (startSession true "scan-1" ⟨[], 0, 0⟩).2)) ∧
    ((startSession true "scan-1" ⟨[], 0, 0⟩).2.sessions.map
        Prod.fst).Nodup :=
  ⟨(startSession_idempotent ⟨[("scan-1", ⟨.ready, 0⟩)], 1, 1⟩ "scan-1").1
      rfl,
   (startSession_idempotent ⟨[], 0, 0⟩ "scan-1").2.2.2.1 rfl,
   (startSession_idempotent ⟨[], 0, 0⟩ "scan-1").2.2.1,
   (startSession_idempotent ⟨[], 0, 0⟩ "scan-1").2.2.2.2.2 (by simp)⟩

/-- C5: `healthCheck` never throws when the substrate is completely
unreachable — it returns `dockerAvailable = false`, `imageExists = false`,
`activeContainers = 0` — and each sub-check's outcome determines only its
own field, independent of the other sub-checks. -/
theorem healthCheck_degrades_gracefully :
    (∀ (msg : String) (n : Nat),
      healthCheck (downSubstrate msg) n =
        { dockerAvailable := false, imageExists := false,
          activeContainers := 0, activeSessions := n, version := none }) ∧
    (∀ (sub sub' : SubstrateProbe) (n : Nat),
      (sub.ping = sub'.ping →
        (healthCheck sub n).dockerAvailable
          = (healthCheck sub' n).dockerAvailable) ∧
      (sub.listImages = sub'.listImages →
        (healthCheck sub n).imageExists
          = (healthCheck sub' n).imageExists) ∧
      (sub.listContainers = sub'.listContainers →
        (healthCheck sub n).activeContainers
          = (healthCheck sub' n).activeContainers) ∧
      (sub.version = sub'.version →
        (healthCheck sub n).version = (healthCheck sub' n).version)) := by
  constructor
  · intro msg n; rfl
  · intro sub sub' n
    refine ⟨fun h => ?_, fun h => ?_, fun h => ?_, fun h => ?_⟩ <;>
      simp [healthCheck, h]

/-- Witness for C5 with a concrete unreachable substrate. -/
theorem healthCheck_degrades_gracefully_witness :
    (healthCheck (downSubstrate "connect ECONNREFUSED") 0 =
      { dockerAvailable := false, imageExists := false,
        activeContainers := 0, activeSessions := 0, version := none }) ∧
    ((healthCheck (downSubstrate "boom") 2).imageExists
      = (healthCheck (downSubstrate "boom") 2).imageExists) :=
  ⟨healthCheck_degrades_gracefully.1 "connect ECONNREFUSED" 0,
   (healthCheck_degrades_gracefully.2 (downSubstrate "boom")
      (downSubstrate "boom") 2).2.1 rfl⟩

/-- The tool names `buildCommand` recognizes. -/
def knownTool (name : String) : Bool :=
  name == "nmap_scan" || name == "whois_lookup" || name == "dns_lookup" ||
    name == "http_probe" || name == "subdomain_enum"

/-- C10: `executeToolCall` always returns a `ToolResult`: an unknown tool
name maps to `{success := false, output := "", error := the thrown
message}`, an engine-thrown error maps to the same shape with the engine's
message, and a successful run with empty stdout yields the placeholder
output text. -/
theorem executeToolCall_total_and_maps_errors (name : String)
    (args : ToolArgs) (sid : String)
    (engine : ToolExecutionRequest → Except String ToolExecutionResult) :
    (knownTool name = false →
      executeToolCall name args sid engine =
        ⟨false, "", some ("Unknown tool: " ++ name)⟩) ∧
    (∀ cmd msg, buildCommand name args = .ok cmd →
      engine ⟨cmd, sid, "agent", name, some 60000⟩ = .error msg →
      executeToolCall name args sid engine = ⟨false, "", some msg⟩) ∧
    (∀ cmd res, buildCommand name args = .ok cmd →
      engine ⟨cmd, sid, "agent", name, some 60000⟩ = .ok res →
      res.success = true → res.stdout = "" →
      executeToolCall name args sid engine =
        ⟨true, "Command completed with no output.", none⟩) := by
  refine ⟨fun hunk => ?_, fun cmd msg hb he => ?_,
    fun cmd res hb he hs ho => ?_⟩
  · simp only [knownTool, Bool.or_eq_false_iff, beq_eq_false_iff_ne,
      ne_eq] at hunk
    obtain ⟨⟨⟨⟨h1, h2⟩, h3⟩, h4⟩, h5⟩ := hunk
    simp [executeToolCall, buildCommand, h1, h2, h3, h4, h5]
  · simp [executeToolCall, hb, he]
  · simp [executeToolCall, hb, he, hs, ho]

/-- Witness for C10: a concrete unknown tool, a concrete engine failure,
and a concrete empty-stdout success. -/
theorem executeToolCall_total_and_maps_errors_witness :
    (executeToolCall "zzz" ⟨none, none, none, none, none⟩ "session-123"
        (fun _ => .error "engine down")
      = ⟨false, "", some ("Unknown tool: " ++ "zzz")⟩) ∧
    (executeToolCall "whois_lookup" ⟨none, none, some "example.com", none, none⟩
        "session-123" (fun _ => .error "Docker is not available")
      = ⟨false, "", some "Docker is not available"⟩) ∧
    (executeToolCall "whois_lookup" ⟨none, none, some "example.com", none, none⟩
        "session-123" (fun _ => .ok (mkResult 0 false "" "" 100 none))
      = ⟨true, "Command completed with no output.", none⟩) :=
  ⟨(executeToolCall_total_and_maps_errors "zzz"
      ⟨none, none, none, none, none⟩ "session-123"
      (fun _ => .error "engine down")).1 rfl,
   (executeToolCall_total_and_maps_errors "whois_lookup"
      ⟨none, none, some "example.com", none, none⟩ "session-123"
      (fun _ => .error "Docker is not available")).2.1
      "whois example.com" "Docker is not available" rfl rfl,
   (executeToolCall_total_and_maps_errors "whois_lookup"
      ⟨none, none, some "example.com", none, none⟩ "session-123"
      (fun _ => .ok (mkResult 0 false "" "" 100 none))).2.2
      "whois example.com" (mkResult 0 false "" "" 100 none)
      rfl rfl rfl rfl⟩

/-- Per-key lock invariant: a running execution holds its key's lock. -/
theorem lock_invariant (keys : Fin 2 → String) (s : LockState)
    (h : LockReachable keys s) :
    ∀ i, s.phase i = .running → s.owner (keys i) = some i := by
  unfold LockReachable at h
  induction h with
  | refl =>
      intro i hi
      exact absurd hi (by simp [lockInit])
  | tail hab hbc ih =>
      cases hbc with
      | acquire j hp ho =>
          intro i hi
          dsimp only at hi ⊢
          by_cases hij : i = j
          · subst hij
            simp
          · rw [Function.update_noteq hij] at hi
            have hoi := ih i hi
            by_cases hk : keys i = keys j
            · rw [hk, ho] at hoi
              cases hoi
            · simpa [hk] using hoi
      | release j hp =>
          intro i hi
          dsimp only at hi ⊢
          by_cases hij : i = j
          · subst hij
            rw [Function.update_same] at hi
            cases hi
          · rw [Function.update_noteq hij] at hi
            have hoi := ih i hi
            have hjown := ih j hp
            by_cases hk : keys i = keys j
            · rw [hk, hjown] at hoi
              injection hoi with hji
              exact absurd hji.symm hij
            · simpa [hk] using hoi

/-- The both-running distinct-key state is reachable. -/
theorem lockBoth_reachable : LockReachable twoKeysDemo lockBoth := by
  have h1 : LockStep twoKeysDemo lockInit lockMid := by
    unfold lockMid
    exact LockStep.acquire lockInit 0 rfl rfl
  have h2 : LockStep twoKeysDemo lockMid lockBoth := by
    unfold lockBoth
    exact LockStep.acquire lockMid 1 (by decide) (by decide)
  exact Relation.ReflTransGen.tail (Relation.ReflTransGen.tail
    Relation.ReflTransGen.refl h1) h2

/-- C9: under the per-key execution lock, two executions against the same
session key are never inside their commands at the same time (same-key
calls serialize), while two executions against distinct keys can both be
running concurrently in a reachable schedule. -/
theorem same_key_serialized_distinct_keys_parallel :
    (∀ (keys : Fin 2 → String) (s : LockState), LockReachable keys s →
      s.phase 0 = .running → s.phase 1 = .running → keys 0 ≠ keys 1) ∧
    (∃ s : LockState, LockReachable twoKeysDemo s ∧
      s.phase 0 = .running ∧ s.phase 1 = .running) := by
  constructor
  · intro keys s hreach h0 h1 hkeq
    have e0 := lock_invariant keys s hreach 0 h0
    have e1 := lock_invariant keys s hreach 1 h1
    rw [hkeq] at e0
    rw [e1] at e0
    cases e0
  · exact ⟨lockBoth, lockBoth_reachable, by decide, by decide⟩

/-- Witness for C9: the two demonstration keys are distinct, by applying
the mutual-exclusion half at the reachable both-running state. -/
theorem same_key_serialized_distinct_keys_parallel_witness :
    twoKeysDemo 0 ≠ twoKeysDemo 1 :=
  same_key_serialized_distinct_keys_parallel.1 twoKeysDemo lockBoth
    lockBoth_reachable (by decide) (by decide)

end MikkyOS
